import Mathlib

/-!
Verification of `w3af/core/data/request/fuzzable_request.py`.

The file embeds the `FuzzableRequest` class as a Lean structure together
with executable versions of its methods (`sent`, `is_variant_of`,
`export`, the setters, `__hash__`, `__eq__`).  Strings are modelled as
lists of characters (`Str`), which matches the byte/character view the
Python 2 code takes of its data.  The external collaborators that the
class consumes through a narrow interface (the `URL` type, the
`DataContainer`, the `Cookie` container) are modelled from the spec where
their code is not part of the sources.
-/

set_option autoImplicit false

namespace W3af

/-- Character strings of the embedded program, as lists of characters. -/
abbrev Str := List Char

/-- Hexadecimal value of a character, `none` when the character is not a
hex digit.  Used by the embedding of `urllib.unquote`. -/
def hexVal (c : Char) : Option Nat :=
  if 48 ≤ c.toNat ∧ c.toNat ≤ 57 then some (c.toNat - 48)
  else if 97 ≤ c.toNat ∧ c.toNat ≤ 102 then some (c.toNat - 87)
  else if 65 ≤ c.toNat ∧ c.toNat ≤ 70 then some (c.toNat - 55)
  else none

/-- Embedding of Python 2 `urllib.unquote`: every `%XY` with two hex
digits becomes the character with code `16*X + Y`; a percent sign not
followed by two hex digits is kept verbatim. -/
def unquote : Str → Str
  | [] => []
  | c :: h1 :: h2 :: rest2 =>
    if c.toNat = 37 then
      match hexVal h1, hexVal h2 with
      | some a, some b => Char.ofNat (16 * a + b) :: unquote rest2
      | _, _ => c :: unquote (h1 :: h2 :: rest2)
    else c :: unquote (h1 :: h2 :: rest2)
  | c :: rest => c :: unquote rest

/-- Embedding of Python 2 `str.isdigit`: true when the string is
non-empty and every character is a decimal digit (`'0'..'9'`). -/
def pyIsdigit (s : Str) : Bool :=
  !s.isEmpty && s.all fun c => decide (48 ≤ c.toNat ∧ c.toNat ≤ 57)

/-- Tests whether the first list is a prefix of the second.  Helper for
the embedding of Python's substring operator `in`. -/
def leadsWith : Str → Str → Bool
  | [], _ => true
  | _ :: _, [] => false
  | c :: cs, d :: ds => c == d && leadsWith cs ds

/-- Embedding of Python's substring test `needle in hay`. -/
def occursIn (needle : Str) : Str → Bool
  | [] => needle.isEmpty
  | d :: ds => leadsWith needle (d :: ds) || occursIn needle ds

/-- Embedding of `str.replace(' ', '%20')`: every space character is
replaced with the three characters `%20`. -/
def replaceSpaces : Str → Str
  | [] => []
  | c :: rest =>
    if c.toNat = 32 then
      Char.ofNat 37 :: Char.ofNat 50 :: Char.ofNat 48 :: replaceSpaces rest
    else c :: replaceSpaces rest

/-- Modelled from the spec: the `URL.uri2url` operation of the external
resource-identifier type, which derives the query-stripped form of an
identifier.  It keeps the characters before the first question mark. -/
def stripQuery : Str → Str
  | [] => []
  | c :: rest => if c.toNat = 63 then [] else c :: stripQuery rest

/-- Modelled from the spec: the external ordered multi-valued parameter
container, a sequence of (name, values) pairs in insertion order. -/
structure DataContainer where
  pairs : List (Str × List Str)
deriving DecidableEq

/-- Ordered sequence of parameter names of a container (`dc.keys()`). -/
def dcKeys (dc : DataContainer) : List Str := dc.pairs.map Prod.fst

/-- Flattening of all values of a container in iteration order
(`chain(*dc.values())`). -/
def dcFlatValues (dc : DataContainer) : List Str :=
  (dc.pairs.map Prod.snd).flatten

/-- Python truthiness of a container: non-empty. -/
def dcBool (dc : DataContainer) : Bool := !dc.pairs.isEmpty

/-- Separator-joined concatenation of a list of strings. -/
def joinSep (sep : Str) : List Str → Str
  | [] => []
  | [s] => s
  | s :: rest => s ++ sep ++ joinSep sep rest

/-- Modelled from the spec: the container's own string form, usable as a
query string or body: `name=value` pieces joined with ampersands, one
piece per value in iteration order. -/
def dcStr (dc : DataContainer) : Str :=
  joinSep [Char.ofNat 38]
    ((dc.pairs.map fun p => p.2.map fun v => p.1 ++ [Char.ofNat 61] ++ v).flatten)

/-- Modelled from the spec: decoding a byte string with the container's
own character encoding (`.decode(dc.encoding)`).  In this character-level
embedding the byte-to-text conversion is the identity on the character
sequence; malformed encodings are the container's responsibility and are
out of scope. -/
def dcDecode (_dc : DataContainer) (s : Str) : Str := s

/-- Modelled from the spec: the external cookie container, constructible
from a header-value string or empty. -/
structure Cookie where
  content : Str
deriving DecidableEq

/-- The fuzzable request entity: parameter container, method, headers,
cookie, optional raw body (`_data`), full URI (`_uri`), query-stripped
URL (`_url`) and the lazily computed comparison cache
(`_sent_info_comp`). -/
structure FuzzableRequest where
  dc : DataContainer
  method : Str
  headers : List (Str × Str)
  cookie : Cookie
  data : Option Str
  uri : Str
  url : Str
  sent_info_comp : Option Str
deriving DecidableEq

/-- Embedding of `FuzzableRequest.__init__(uri, method, dc)`: stores the
container and method, applies the `set_uri` logic to derive `_url`, and
leaves the comparison cache unset. -/
def mkRequest (uri method : Str) (dc : DataContainer) : FuzzableRequest :=
  { dc := dc, method := method, headers := [], cookie := ⟨[]⟩,
    data := none, uri := uri, url := stripQuery uri, sent_info_comp := none }

/-- Characters removed by the normalization of `sent.make_comp`:
backslash, single quote, double quote, plus sign, space, NUL, carriage
return, line feed (`delete_chars` in the source). -/
def delete_chars : List Char :=
  [Char.ofNat 92, Char.ofNat 39, Char.ofNat 34, Char.ofNat 43,
   Char.ofNat 32, Char.ofNat 0, Char.ofNat 13, Char.ofNat 10]

/-- Embedding of `make_comp`: `string.translate` with the identity
translation table and `delete_chars` as deletion set, i.e. a pure
deletion filter on the characters of the string. -/
def make_comp (s : Str) : Str :=
  s.filter fun c => !(delete_chars.contains c)

/-- The fast-path condition of `sent`: the raw candidate appears
verbatim in the (non-empty) raw body, in the raw URI, in the
percent-decoded body, or in the percent-decoded URI. -/
def fastPathHit (fr : FuzzableRequest) (smth : Str) : Bool :=
  (!(fr.data.getD []).isEmpty && occursIn smth (fr.data.getD [])) ||
    occursIn smth fr.uri ||
    occursIn smth (unquote (fr.data.getD [])) ||
    occursIn smth (unquote fr.uri)

/-- The comparison cache used by `sent`: the stored value when already
set, otherwise `make_comp(d + unquote(d))` where `d` is the URI string,
followed by the raw body (or empty), followed by the percent-decoded
container string decoded with the container's encoding. -/
def sentCache (fr : FuzzableRequest) : Str :=
  match fr.sent_info_comp with
  | some c => c
  | none =>
    let dec_dc := dcDecode fr.dc (unquote (dcStr fr.dc))
    let d := fr.uri ++ fr.data.getD [] ++ dec_dc
    make_comp (d ++ unquote d)

/-- Embedding of `FuzzableRequest.sent`: returns the boolean result and
the (possibly updated, because of the lazily built cache) entity. -/
def sent (fr : FuzzableRequest) (smth : Str) : Bool × FuzzableRequest :=
  if fastPathHit fr smth then (true, fr)
  else
    let cache := sentCache fr
    let fr2 := { fr with sent_info_comp := some cache }
    let comps := [make_comp smth, make_comp (unquote smth)]
    (comps.any fun comp => occursIn comp cache && decide (3 ≤ comp.length), fr2)

/-- Embedding of the value loop of `is_variant_of`:
`izip_longest(xs, ys, fillvalue=None)` returns `False` as soon as one
side is exhausted (`None in (vself, vother)`) or the two values differ
on `isdigit`, and `True` after a complete pass. -/
def izipDigitCheck : List Str → List Str → Bool
  | [], [] => true
  | [], _ :: _ => false
  | _ :: _, [] => false
  | x :: xs, y :: ys =>
    if pyIsdigit x = pyIsdigit y then izipDigitCheck xs ys else false

/-- Embedding of `FuzzableRequest.is_variant_of`. -/
def is_variant_of (a b : FuzzableRequest) : Bool :=
  if a.method = b.method ∧ a.url = b.url ∧ dcKeys a.dc = dcKeys b.dc then
    izipDigitCheck (dcFlatValues a.dc) (dcFlatValues b.dc)
  else false

/-- Embedding of `FuzzableRequest.export`: `METHOD,URL` followed by the
query fragment and trailing comma for GET, or by a comma and the body
field for other methods. -/
def exportFR (fr : FuzzableRequest) : Str :=
  let base := fr.method ++ [Char.ofNat 44] ++ fr.url
  if fr.method = (r"GET").data then
    (if dcBool fr.dc then base ++ [Char.ofNat 63] ++ dcStr fr.dc else base) ++
      [Char.ofNat 44]
  else
    base ++ [Char.ofNat 44] ++ (if dcBool fr.dc then dcStr fr.dc else [])

/-- A 64-bit string hash; stands for Python's `hash` on strings.  What
matters for the claims is that it is a deterministic function of the
character sequence it is given. -/
def strHash (s : Str) : Nat :=
  s.foldl (fun acc c => (1000003 * acc + c.toNat) % (2 ^ 64)) 5381

/-- Embedding of `FuzzableRequest.__hash__`: the hash of `str(self._uri)`. -/
def hashFR (fr : FuzzableRequest) : Nat := strHash fr.uri

/-- Embedding of `FuzzableRequest.__eq__`: same method, same full URI,
same parameter container. -/
def equalsFR (a b : FuzzableRequest) : Bool :=
  decide (a.method = b.method ∧ a.uri = b.uri ∧ a.dc = b.dc)

/-- Dynamic values handed to the duck-typed setters, mirroring the
`isinstance` checks of the source: a `URL` instance, a `DataContainer`
instance, a `Cookie` instance, a plain string, `None`, or any other
object (represented by a number). -/
inductive PyVal where
  | url (u : Str)
  | dcv (d : DataContainer)
  | cookie (c : Cookie)
  | str (s : Str)
  | pynone
  | num (n : Nat)
deriving DecidableEq

/-- The two error kinds raised by the setters: `TypeError`
(spec: TypeKind) and `BaseFrameworkException` (spec: ValueKind). -/
inductive FrError where
  | typeKind
  | valueKind
deriving DecidableEq

/-- Embedding of `set_url`: requires a `URL` instance, stores the url
string with spaces percent-encoded, and makes `_uri` the same value.
On a type failure the entity is returned unchanged with the error. -/
def set_url (v : PyVal) (fr : FuzzableRequest) :
    FuzzableRequest × Option FrError :=
  match v with
  | .url u =>
    ({ fr with url := replaceSpaces u, uri := replaceSpaces u }, none)
  | _ => (fr, some FrError.typeKind)

/-- Embedding of `set_uri`: requires a `URL` instance, stores it as
`_uri` and derives `_url = uri.uri2url()`.  On a type failure the entity
is returned unchanged with the error. -/
def set_uri (v : PyVal) (fr : FuzzableRequest) :
    FuzzableRequest × Option FrError :=
  match v with
  | .url u => ({ fr with uri := u, url := stripQuery u }, none)
  | _ => (fr, some FrError.typeKind)

/-- Embedding of `set_dc`: requires a `DataContainer` instance. -/
def set_dc (v : PyVal) (fr : FuzzableRequest) :
    FuzzableRequest × Option FrError :=
  match v with
  | .dcv d => ({ fr with dc := d }, none)
  | _ => (fr, some FrError.typeKind)

/-- Embedding of `set_cookie`: accepts a `Cookie` instance, a string
(wrapped into a cookie), or `None` (empty cookie); any other value is
rejected with a `BaseFrameworkException`. -/
def set_cookie (v : PyVal) (fr : FuzzableRequest) :
    FuzzableRequest × Option FrError :=
  match v with
  | .cookie c => ({ fr with cookie := c }, none)
  | .str s => ({ fr with cookie := ⟨s⟩ }, none)
  | .pynone => ({ fr with cookie := ⟨[]⟩ }, none)
  | _ => (fr, some FrError.valueKind)

/-- Embedding of `set_data`: stores the raw body string unchecked. -/
def set_data (d : Option Str) (fr : FuzzableRequest) : FuzzableRequest :=
  { fr with data := d }

/-- Embedding of `set_method`: stores the method string unchecked. -/
def set_method (m : Str) (fr : FuzzableRequest) : FuzzableRequest :=
  { fr with method := m }

/-! ### Helper lemmas -/

/-- The empty needle occurs in every haystack. -/
theorem occursIn_nil_needle (l : Str) : occursIn [] l = true := by
  cases l <;> simp [occursIn, leadsWith]

/-- Characterization of the `izip_longest` value loop: it succeeds
exactly when the two lists have the same length and every positional
pair agrees on `pyIsdigit`. -/
theorem izipDigitCheck_iff (xs : List Str) : ∀ ys : List Str,
    izipDigitCheck xs ys = true ↔
      (xs.length = ys.length ∧
        ∀ p ∈ xs.zip ys, pyIsdigit p.1 = pyIsdigit p.2) := by
  induction xs with
  | nil => intro ys; cases ys <;> simp [izipDigitCheck]
  | cons x xs ih =>
    intro ys
    cases ys with
    | nil => simp [izipDigitCheck]
    | cons y ys =>
      by_cases h : pyIsdigit x = pyIsdigit y
      · simp only [izipDigitCheck, h, if_pos, ih ys, List.zip_cons_cons,
          List.length_cons, List.mem_cons]
        constructor
        · rintro ⟨hl, hall⟩
          refine ⟨by omega, ?_⟩
          rintro p (rfl | hp)
          · exact h
          · exact hall p hp
        · rintro ⟨hl, hall⟩
          exact ⟨by omega, fun p hp => hall p (Or.inr hp)⟩
      · simp only [izipDigitCheck]
        rw [if_neg h]
        simp only [Bool.false_eq_true, false_iff, not_and, List.zip_cons_cons]
        intro _ hall
        exact h (hall (x, y) (List.mem_cons_self _ _))

/-- `replaceSpaces` is the per-character substitution that maps a space
to the three characters of `%20` and keeps every other character. -/
theorem replaceSpaces_eq_bind (u : Str) :
    replaceSpaces u = u.flatMap fun c =>
      if c.toNat = 32 then [Char.ofNat 37, Char.ofNat 50, Char.ofNat 48]
      else [c] := by
  induction u with
  | nil => rfl
  | cons c rest ih =>
    by_cases h : c.toNat = 32 <;> simp [replaceSpaces, h, ih]

/-- `stripQuery` keeps exactly the characters before the first question
mark. -/
theorem stripQuery_eq_takeWhile (u : Str) :
    stripQuery u = u.takeWhile fun c => !(c.toNat == 63) := by
  induction u with
  | nil => rfl
  | cons c rest ih =>
    by_cases h : c.toNat = 63 <;> simp [stripQuery, h, List.takeWhile_cons, ih]

/-! ### Claim theorems -/

/-- C1: `is_variant_of(a, b)` returns true if and only if the methods
are identical strings, the query-stripped URLs are equal, the ordered
sequences of parameter names are equal, the flattened value sequences
have the same length (different lengths give false), and every
positional pair of values agrees on the predicate "consists entirely of
decimal digits" (Python `isdigit`: non-empty and all decimal digits). -/
theorem is_variant_of_iff (a b : FuzzableRequest) :
    is_variant_of a b = true ↔
      (a.method = b.method ∧ a.url = b.url ∧ dcKeys a.dc = dcKeys b.dc ∧
       (dcFlatValues a.dc).length = (dcFlatValues b.dc).length ∧
       ∀ p ∈ (dcFlatValues a.dc).zip (dcFlatValues b.dc),
         pyIsdigit p.1 = pyIsdigit p.2) := by
  by_cases h : a.method = b.method ∧ a.url = b.url ∧ dcKeys a.dc = dcKeys b.dc
  · simp only [is_variant_of, if_pos h, izipDigitCheck_iff]
    exact ⟨fun hz => ⟨h.1, h.2.1, h.2.2, hz.1, hz.2⟩,
           fun hc => ⟨hc.2.2.2.1, hc.2.2.2.2⟩⟩
  · simp only [is_variant_of, if_neg h, Bool.false_eq_true, false_iff, not_and]
    intro h1 h2 h3
    exact absurd ⟨h1, h2, h3⟩ h

/-- Witness entity for C1. -/
def frW1 : FuzzableRequest :=
  mkRequest (r"http://w/i?a=1").data (r"GET").data
    ⟨[((r"a").data, [(r"1").data, (r"xy").data])]⟩

/-- Witness for C1: the characterization applied to a concrete pair. -/
theorem is_variant_of_iff_witness : is_variant_of frW1 frW1 = true :=
  (is_variant_of_iff frW1 frW1).mpr (by decide)

/-- Containers and entities of claim C2. -/
def frA2 : FuzzableRequest :=
  mkRequest (r"http://x/").data (r"GET").data
    ⟨[((r"a").data, [(r"1").data]), ((r"b").data, [(r"two").data])]⟩

/-- Second entity of claim C2, same names in the same order. -/
def frB2 : FuzzableRequest :=
  mkRequest (r"http://x/").data (r"GET").data
    ⟨[((r"a").data, [(r"9").data]), ((r"b").data, [(r"nine").data])]⟩

/-- C2 counterexample: the claim says `is_variant_of` returns false on
these two entities, but the code returns true: "1"/"9" are both numeric
and "two"/"nine" are both non-numeric, so every positional pair agrees
on the digit predicate. -/
theorem is_variant_c2_counterexample : is_variant_of frA2 frB2 = true := by
  decide

/-- C2 amended: on the two GET entities with containers
`{a:["1"], b:["two"]}` and `{a:["9"], b:["nine"]}` the relation
`is_variant_of` returns true, because both positions carry values of the
same digit class (position 1 both numeric, position 2 both
non-numeric). -/
theorem is_variant_c2_amended :
    is_variant_of frA2 frB2 = true ∧
    pyIsdigit (r"1").data = pyIsdigit (r"9").data ∧
    pyIsdigit (r"two").data = pyIsdigit (r"nine").data := by
  decide

/-- C3: when no fast-path raw substring check succeeds and both
normalized candidate forms are shorter than three characters, `sent`
returns false, regardless of the cache contents. -/
theorem sent_short_candidates_false (fr : FuzzableRequest) (smth : Str)
    (hfp : fastPathHit fr smth = false)
    (h1 : (make_comp smth).length < 3)
    (h2 : (make_comp (unquote smth)).length < 3) :
    (sent fr smth).1 = false := by
  have e1 : decide (3 ≤ (make_comp smth).length) = false := by
    simp only [decide_eq_false_iff_not, not_le]; omega
  have e2 : decide (3 ≤ (make_comp (unquote smth)).length) = false := by
    simp only [decide_eq_false_iff_not, not_le]; omega
  simp [sent, hfp, e1, e2]

/-- Witness entity for C3. -/
def frW3 : FuzzableRequest :=
  mkRequest (r"http://h/ab").data (r"GET").data ⟨[]⟩

/-- Witness for C3: the candidate `a+b` normalizes to the two-character
string `ab`, which does occur in the cache, yet `sent` returns false. -/
theorem sent_short_candidates_false_witness :
    fastPathHit frW3 (r"a+b").data = false ∧
    (make_comp (r"a+b").data).length < 3 ∧
    occursIn (make_comp (r"a+b").data) (sentCache frW3) = true ∧
    (sent frW3 (r"a+b").data).1 = false :=
  ⟨by decide, by decide, by decide,
   sent_short_candidates_false frW3 (r"a+b").data (by decide) (by decide)
     (by decide)⟩

/-- C4: when the cache is built, its value is the deletion filter
(removing exactly backslash, single quote, double quote, plus, space,
NUL, CR, LF) applied to `S + unquote(S)`, where `S` is the URI string,
then the raw body (or empty), then the percent-decoded container string
decoded with the container's encoding. -/
theorem sent_cache_built (fr : FuzzableRequest) (smth : Str)
    (hnone : fr.sent_info_comp = none)
    (hfp : fastPathHit fr smth = false) :
    ((sent fr smth).2).sent_info_comp =
      some (((fr.uri ++ fr.data.getD [] ++ dcDecode fr.dc (unquote (dcStr fr.dc)))
          ++ unquote (fr.uri ++ fr.data.getD [] ++
                dcDecode fr.dc (unquote (dcStr fr.dc)))).filter
        fun c => !([Char.ofNat 92, Char.ofNat 39, Char.ofNat 34, Char.ofNat 43,
                    Char.ofNat 32, Char.ofNat 0, Char.ofNat 13,
                    Char.ofNat 10].contains c)) := by
  simp [sent, hfp, sentCache, hnone, make_comp, delete_chars]

/-- Witness entity for C4. -/
def frW4 : FuzzableRequest :=
  mkRequest (r"http://h/a%41").data (r"GET").data
    ⟨[((r"q").data, [(r"vw").data])]⟩

/-- Witness for C4: the cache built for a concrete entity is the
concatenation of the source and its percent-decoded form. -/
theorem sent_cache_built_witness :
    ((sent frW4 (r"zzz").data).2).sent_info_comp =
      some (r"http://h/a%41q=vwhttp://h/aAq=vw").data :=
  (sent_cache_built frW4 (r"zzz").data rfl (by decide)).trans (by decide)

/-- C5: the comparison cache is written at most once: no setter touches
it, a `sent` call on an entity whose cache is already set leaves it
unchanged, and the first `sent` call that reaches the cache-build step
stores the value computed from the fields as they are at that moment. -/
theorem cache_write_once :
    (∀ fr v, ((set_url v fr).1).sent_info_comp = fr.sent_info_comp) ∧
    (∀ fr v, ((set_uri v fr).1).sent_info_comp = fr.sent_info_comp) ∧
    (∀ fr v, ((set_dc v fr).1).sent_info_comp = fr.sent_info_comp) ∧
    (∀ fr d, (set_data d fr).sent_info_comp = fr.sent_info_comp) ∧
    (∀ fr m, (set_method m fr).sent_info_comp = fr.sent_info_comp) ∧
    (∀ fr v, ((set_cookie v fr).1).sent_info_comp = fr.sent_info_comp) ∧
    (∀ fr smth c, fr.sent_info_comp = some c →
       ((sent fr smth).2).sent_info_comp = some c) ∧
    (∀ fr smth, fr.sent_info_comp = none → fastPathHit fr smth = false →
       ((sent fr smth).2).sent_info_comp = some (sentCache fr)) := by
  refine ⟨?_, ?_, ?_, ?_, ?_, ?_, ?_, ?_⟩
  · intro fr v; cases v <;> rfl
  · intro fr v; cases v <;> rfl
  · intro fr v; cases v <;> rfl
  · intro fr d; rfl
  · intro fr m; rfl
  · intro fr v; cases v <;> rfl
  · intro fr smth c hc
    by_cases hfp : fastPathHit fr smth = true
    · simp [sent, hfp, hc]
    · simp only [Bool.not_eq_true] at hfp
      simp [sent, hfp, sentCache, hc]
  · intro fr smth _ hfp
    simp [sent, hfp]

/-- Witness entity for C5, with a populated cache. -/
def frW5 : FuzzableRequest :=
  { mkRequest (r"http://h/x").data (r"GET").data ⟨[]⟩ with
    sent_info_comp := some (r"cache").data }

/-- Witness entity for C5, with an empty cache. -/
def frW5b : FuzzableRequest :=
  mkRequest (r"http://h/x").data (r"GET").data ⟨[]⟩

/-- Witness for C5: a setter leaves the cache alone, `sent` on a cached
entity keeps the stored value, and `sent` on an uncached entity stores
the freshly computed value. -/
theorem cache_write_once_witness :
    (set_data (some (r"zz").data) frW5).sent_info_comp =
      frW5.sent_info_comp ∧
    ((sent frW5 (r"qqq").data).2).sent_info_comp = some (r"cache").data ∧
    ((sent frW5b (r"qqq").data).2).sent_info_comp = some (sentCache frW5b) :=
  ⟨cache_write_once.2.2.2.1 frW5 (some (r"zz").data),
   cache_write_once.2.2.2.2.2.2.1 frW5 (r"qqq").data (r"cache").data rfl,
   cache_write_once.2.2.2.2.2.2.2 frW5b (r"qqq").data rfl (by decide)⟩

/-- C6: the hash is a function of the URI string alone, so entities with
equal URI strings hash alike even when methods or containers differ; in
particular `equals` implies equal hashes. -/
theorem hash_depends_only_on_uri :
    (∀ a b : FuzzableRequest, a.uri = b.uri → hashFR a = hashFR b) ∧
    (∀ a b : FuzzableRequest, equalsFR a b = true → hashFR a = hashFR b) := by
  constructor
  · intro a b h
    simp [hashFR, h]
  · intro a b h
    simp only [equalsFR, decide_eq_true_eq] at h
    simp [hashFR, h.2.1]

/-- Witness entity for C6 (GET, empty container). -/
def frH1 : FuzzableRequest :=
  mkRequest (r"http://h/i").data (r"GET").data ⟨[]⟩

/-- Witness entity for C6: same URI as `frH1`, different method and
container. -/
def frH2 : FuzzableRequest :=
  mkRequest (r"http://h/i").data (r"POST").data
    ⟨[((r"a").data, [(r"1").data])]⟩

/-- Witness for C6: equal URI strings with different method and
parameters still share a hash, and `equals` implies hash equality. -/
theorem hash_depends_only_on_uri_witness :
    hashFR frH1 = hashFR frH2 ∧ hashFR frH1 = hashFR frH1 :=
  ⟨hash_depends_only_on_uri.1 frH1 frH2 rfl,
   hash_depends_only_on_uri.2 frH1 frH1 (by decide)⟩

/-- Entity of claim C7 whose URI carries a query string. -/
def frQ7 : FuzzableRequest :=
  mkRequest (r"http://h/p?x=1").data (r"GET").data ⟨[]⟩

/-- C7 counterexample: `export` prints the query-stripped URL, not the
URI: on a GET entity with URI `http://h/p?x=1` and no parameters it
yields `GET,http://h/p,`, not the claim's `METHOD + "," + URI + ","`. -/
theorem export_c7_counterexample :
    exportFR frQ7 = (r"GET,http://h/p,").data ∧
    exportFR frQ7 ≠ frQ7.method ++ [Char.ofNat 44] ++ frQ7.uri ++
      [Char.ofNat 44] := by
  decide

/-- GET example entity of claim C7. -/
def frG7 : FuzzableRequest :=
  mkRequest (r"http://h/p").data (r"GET").data
    ⟨[((r"a").data, [(r"1").data])]⟩

/-- POST example entity of claim C7. -/
def frP7 : FuzzableRequest :=
  mkRequest (r"http://h/p").data (r"POST").data
    ⟨[((r"a").data, [(r"1").data])]⟩

/-- C7 amended: `export` returns METHOD + "," + URL (the query-stripped
identifier, not the full URI) + ("?" + container string if the method is
GET and the container is non-empty) + "," + (container string if the
method is not GET and the container is non-empty); the two concrete
examples of the claim hold as stated. -/
theorem export_formula :
    (∀ fr : FuzzableRequest,
      exportFR fr = fr.method ++ [Char.ofNat 44] ++ fr.url ++
        (if fr.method = (r"GET").data then
           (if fr.dc.pairs.isEmpty then []
            else [Char.ofNat 63] ++ dcStr fr.dc) ++ [Char.ofNat 44]
         else [Char.ofNat 44] ++
           (if fr.dc.pairs.isEmpty then [] else dcStr fr.dc))) ∧
    exportFR frG7 = (r"GET,http://h/p?a=1,").data ∧
    exportFR frP7 = (r"POST,http://h/p,a=1").data := by
  refine ⟨?_, by decide, by decide⟩
  intro fr
  by_cases hm : fr.method = (r"GET").data <;>
    by_cases hd : fr.dc.pairs.isEmpty = true <;>
      simp [exportFR, hm, hd, dcBool, List.append_assoc]

/-- C8: a successful `set_uri(u)` stores `u` as the URI and the
query-stripped form of `u` (the characters before the first question
mark) as the URL; a successful `set_url(u)` stores, as both URL and URI,
the string of `u` with every space replaced by `%20`. -/
theorem set_uri_set_url_spec (fr : FuzzableRequest) (u : Str) :
    ((set_uri (PyVal.url u) fr).2 = none ∧
     (set_uri (PyVal.url u) fr).1.uri = u ∧
     (set_uri (PyVal.url u) fr).1.url =
       u.takeWhile (fun c => !(c.toNat == 63))) ∧
    ((set_url (PyVal.url u) fr).2 = none ∧
     (set_url (PyVal.url u) fr).1.url =
       (u.flatMap fun c =>
         if c.toNat = 32 then [Char.ofNat 37, Char.ofNat 50, Char.ofNat 48]
         else [c]) ∧
     (set_url (PyVal.url u) fr).1.uri = (set_url (PyVal.url u) fr).1.url) :=
  ⟨⟨rfl, rfl, stripQuery_eq_takeWhile u⟩,
   ⟨rfl, replaceSpaces_eq_bind u, rfl⟩⟩

/-- C9: `set_url`, `set_uri` and `set_dc` reject any value that is not
of the required type with a `TypeError`, `set_cookie` rejects a value
that is neither a cookie, a string nor `None` with a
`BaseFrameworkException`, and every failing call leaves the entity
exactly as it was. -/
theorem setter_type_value_errors :
    (∀ fr v, (∀ u, v ≠ PyVal.url u) →
       set_url v fr = (fr, some FrError.typeKind)) ∧
    (∀ fr v, (∀ u, v ≠ PyVal.url u) →
       set_uri v fr = (fr, some FrError.typeKind)) ∧
    (∀ fr v, (∀ d, v ≠ PyVal.dcv d) →
       set_dc v fr = (fr, some FrError.typeKind)) ∧
    (∀ fr v, (∀ c, v ≠ PyVal.cookie c) → (∀ s, v ≠ PyVal.str s) →
       v ≠ PyVal.pynone →
       set_cookie v fr = (fr, some FrError.valueKind)) := by
  refine ⟨?_, ?_, ?_, ?_⟩
  · intro fr v h
    cases v with
    | url u => exact absurd rfl (h u)
    | _ => rfl
  · intro fr v h
    cases v with
    | url u => exact absurd rfl (h u)
    | _ => rfl
  · intro fr v h
    cases v with
    | dcv d => exact absurd rfl (h d)
    | _ => rfl
  · intro fr v h1 h2 h3
    cases v with
    | cookie c => exact absurd rfl (h1 c)
    | str s => exact absurd rfl (h2 s)
    | pynone => exact absurd rfl h3
    | _ => rfl

/-- Witness entity for C9. -/
def frW9 : FuzzableRequest :=
  mkRequest (r"http://h/").data (r"GET").data ⟨[]⟩

/-- Witness for C9: a number is none of the accepted shapes, every
setter rejects it with the right error kind, and the entity comes back
unchanged. -/
theorem setter_type_value_errors_witness :
    set_url (PyVal.num 0) frW9 = (frW9, some FrError.typeKind) ∧
    set_uri (PyVal.num 0) frW9 = (frW9, some FrError.typeKind) ∧
    set_dc (PyVal.num 0) frW9 = (frW9, some FrError.typeKind) ∧
    set_cookie (PyVal.num 0) frW9 = (frW9, some FrError.valueKind) :=
  ⟨setter_type_value_errors.1 frW9 (PyVal.num 0) (fun _ h => nomatch h),
   setter_type_value_errors.2.1 frW9 (PyVal.num 0) (fun _ h => nomatch h),
   setter_type_value_errors.2.2.1 frW9 (PyVal.num 0) (fun _ h => nomatch h),
   setter_type_value_errors.2.2.2 frW9 (PyVal.num 0) (fun _ h => nomatch h)
     (fun _ h => nomatch h) (fun h => nomatch h)⟩

/-- C10: `sent` with the empty candidate returns true for every entity:
the empty string is a substring of the URI, so the fast path fires. -/
theorem sent_empty_candidate (fr : FuzzableRequest) :
    (sent fr []).1 = true := by
  have h : fastPathHit fr [] = true := by
    simp [fastPathHit, occursIn_nil_needle]
  simp [sent, h]

end W3af
